import Mathlib

/-!
Shallow embedding of `src/skills/new-python-project/scripts/init_project.py`.

The filesystem is modelled as an association list from paths (lists of
components, rooted at the base directory passed as `--path`) to entries,
where an entry is either a regular file with its text content or a
directory.  Python exceptions raised by `pathlib` operations are modelled
with `Except`; the exact exception class does not matter for the claims,
only whether an operation raises.  External subprocesses (`uv`, `git`) are
out of scope per the specification; they are modelled by an environment
record (availability of `uv`, behaviour of `uv init`, success of the git
subcommands) and by the trace of argument lists handed to them.
-/

namespace InitProject

/-- A filesystem entry: a regular file with its text content, or a directory. -/
inductive Entry : Type
  | file (content : String)
  | dir
deriving DecidableEq, Repr

/-- A path, as the list of components below the base directory. -/
abbrev FsPath : Type := List String

/-- The filesystem: an association list from paths to entries. -/
abbrev FS : Type := List (FsPath × Entry)

/-- Errors raised by the modelled `pathlib` operations:
`IsADirectoryError` from `Path.write_text` on a directory,
`FileNotFoundError` from `Path.write_text` under a missing parent,
and the `FileExistsError`/`NotADirectoryError` family from `Path.mkdir`
when a file occupies a component of the path. -/
inductive PyErr : Type
  | isADirectoryError
  | fileNotFoundError
  | mkdirConflict
deriving DecidableEq, Repr

/-- Look a path up in the filesystem. -/
def FS.lookup : FS → FsPath → Option Entry
  | [], _ => none
  | (q, e) :: rest, p => if q = p then some e else FS.lookup rest p

/-- Replace the entry at a path, or append it when absent. -/
def FS.set : FS → FsPath → Entry → FS
  | [], p, e => [(p, e)]
  | (q, e0) :: rest, p, e =>
      if q = p then (p, e) :: rest else (q, e0) :: FS.set rest p e

/-- The empty filesystem. -/
def FS.empty : FS := []

/-! Constants and templates (lines 25-57 of the source).  The Python
triple-quoted templates are reproduced here with `format` applied, i.e. as
functions of the strings that are substituted for the placeholders. -/

/-- Line 26: `PYTHON_VERSION = "3.14"`. -/
def PYTHON_VERSION : String := "3.14"

/-- Line 27: the pinned build-backend requirement string. -/
def UV_BUILD_REQUIRE : String := "uv_build>=0.9.30,<0.10.0"

/-- Lines 29-43: `PYPROJECT_TEMPLATE` with `format` applied to the four
substituted strings. -/
def PYPROJECT_TEMPLATE (proj_name package_name console_name uv_build : String) : String :=
  "[project]\nname = \"" ++ proj_name ++
  "\"\nversion = \"0.1.0\"\ndescription = \"Add your description here\"\nreadme = \"README.md\"\nrequires-python = \">=3.14\"\ndependencies = []\n\n[project.scripts]\n"
  ++ console_name ++ " = \"" ++ package_name ++
  ":main\"\n\n[build-system]\nrequires = [\"" ++ uv_build ++
  "\"]\nbuild-backend = \"uv_build\"\n"

/-- Lines 45-48: `README_TEMPLATE.format(proj_name=name)`. -/
def README_TEMPLATE (proj_name : String) : String :=
  "# " ++ proj_name ++ "\n\nShort description for " ++ proj_name ++ ".\n"

/-- Lines 50-53: `INIT_PY_TEMPLATE.format(proj_name=name)`. -/
def INIT_PY_TEMPLATE (proj_name : String) : String :=
  "def main():\n    # Entry point placeholder for " ++ proj_name ++
  "\n    print(\"Hello from " ++ proj_name ++ "\")\n"

/-- Lines 55-57: the smoke-test template (no placeholders). -/
def TEST_TEMPLATE : String := "def test_smoke():\n    assert True\n"

/-- Line 139: the literal written to `py.typed`. -/
def PY_TYPED_MARKER : String := "# marker file for typed package"

/-- Lines 83-84: `normalize_package_name` replaces `-` by `_`.  The Python
`str.replace` with a one-character pattern substitutes every occurrence,
i.e. it is the character-wise map below. -/
def normalize_package_name (name : String) : String :=
  String.mk (name.data.map (fun c => if c = '-' then '_' else c))

/-- Line 125: `console_name = name`. -/
def consoleName (name : String) : String := name

/-- Lines 126-128: the manifest content produced for a project `name`. -/
def pyprojectContent (name : String) : String :=
  PYPROJECT_TEMPLATE name (normalize_package_name name) (consoleName name) UV_BUILD_REQUIRE

/-! Filesystem primitives used by the script. -/

/-- Whether the parent of `p` exists as a directory (the base directory
itself, `p.dropLast = []`, always exists). -/
def parentOk (fs : FS) (p : FsPath) : Bool :=
  p.dropLast = [] ||
    match FS.lookup fs p.dropLast with
    | some Entry.dir => true
    | _ => false

/-- `Path.write_text`: raises `IsADirectoryError` on a directory, raises
`FileNotFoundError` when the parent directory is missing, otherwise
creates or truncates-and-rewrites the file. -/
def write_text (fs : FS) (p : FsPath) (text : String) : Except PyErr FS :=
  match FS.lookup fs p with
  | some Entry.dir => Except.error PyErr.isADirectoryError
  | some (Entry.file _) => Except.ok (FS.set fs p (Entry.file text))
  | none =>
      if parentOk fs p then Except.ok (FS.set fs p (Entry.file text))
      else Except.error PyErr.fileNotFoundError

/-- One step of `Path.mkdir(exist_ok=True)` at a single path: an existing
directory is fine, an existing file raises, an absent path is created. -/
def mkdirStep (fs : FS) (q : FsPath) : Except PyErr FS :=
  match FS.lookup fs q with
  | some Entry.dir => Except.ok fs
  | some (Entry.file _) => Except.error PyErr.mkdirConflict
  | none => Except.ok (FS.set fs q Entry.dir)

/-- Apply `mkdirStep` along a list of paths, stopping at the first error. -/
def mkdirList : FS → List FsPath → Except PyErr FS
  | fs, [] => Except.ok fs
  | fs, q :: qs =>
      match mkdirStep fs q with
      | Except.ok fs2 => mkdirList fs2 qs
      | Except.error e => Except.error e

/-- The non-empty prefixes of a path, shortest first. -/
def initSegs : FsPath → List FsPath
  | [] => []
  | a :: rest => [a] :: (initSegs rest).map (fun q => a :: q)

/-- `Path.mkdir(parents=True, exist_ok=True)`: create every missing
prefix of `p` as a directory, failing where a file is in the way. -/
def mkdirParents (fs : FS) (p : FsPath) : Except PyErr FS :=
  mkdirList fs (initSegs p)

/-! The script's write policies.  Both carry a counter of the
content-modifying writes (`write_text` calls) performed so far. -/

/-- Lines 65-80, `safe_write_text`: when the path exists and `force` is
false, skip (both for a regular file and for any other entry kind, lines
73-78, which differ only in the log message); otherwise fall through to
`path.write_text(text)`. -/
def safe_write_text (fs : FS) (w : Nat) (path : FsPath) (text : String)
    (force : Bool) : Except PyErr (FS × Nat) :=
  if (FS.lookup fs path).isSome && !force then Except.ok (fs, w)
  else
    match write_text fs path text with
    | Except.ok fs2 => Except.ok (fs2, w + 1)
    | Except.error e => Except.error e

/-- Lines 113-118 and 136-142: the inline pattern
`if not p.exists() or force: p.write_text(text) else: skip`
used for `.python-version` and for `py.typed`. -/
def write_if_absent_or_force (fs : FS) (w : Nat) (path : FsPath) (text : String)
    (force : Bool) : Except PyErr (FS × Nat) :=
  if (FS.lookup fs path).isNone || force then
    match write_text fs path text with
    | Except.ok fs2 => Except.ok (fs2, w + 1)
    | Except.error e => Except.error e
  else Except.ok (fs, w)

/-- The project-kind selector, line 162: `--type` is one of app, package, lib. -/
inductive ProjType : Type
  | app
  | package
  | lib
deriving DecidableEq, Repr

/-- Lines 107-147, `create_standard_files`, with `project_dir = [name]`
(the resolved `base / name` relative to the base directory).  The steps
are in source order: `mkdir` of the project directory, `.python-version`,
`README.md`, `pyproject.toml`, `mkdir` of `src/<package>`, `__init__.py`,
`py.typed` (written for every `project_type`, per the source comment
"Always create py.typed"), `mkdir` of `tests`, `test_smoke.py`.  The
returned `Nat` counts the `write_text` calls performed. -/
def create_standard_files (fs : FS) (name : String) (project_type : ProjType)
    (force : Bool) : Except PyErr (FS × Nat) :=
  match mkdirParents fs [name] with
  | Except.error e => Except.error e
  | Except.ok fs1 =>
  match write_if_absent_or_force fs1 0 [name, ".python-version"] PYTHON_VERSION force with
  | Except.error e => Except.error e
  | Except.ok (fs2, w2) =>
  match safe_write_text fs2 w2 [name, "README.md"] (README_TEMPLATE name) force with
  | Except.error e => Except.error e
  | Except.ok (fs3, w3) =>
  match safe_write_text fs3 w3 [name, "pyproject.toml"] (pyprojectContent name) force with
  | Except.error e => Except.error e
  | Except.ok (fs4, w4) =>
  match mkdirParents fs4 [name, "src", normalize_package_name name] with
  | Except.error e => Except.error e
  | Except.ok fs5 =>
  match safe_write_text fs5 w4 [name, "src", normalize_package_name name, "__init__.py"]
      (INIT_PY_TEMPLATE name) force with
  | Except.error e => Except.error e
  | Except.ok (fs6, w6) =>
  match write_if_absent_or_force fs6 w6 [name, "src", normalize_package_name name, "py.typed"]
      PY_TYPED_MARKER force with
  | Except.error e => Except.error e
  | Except.ok (fs7, w7) =>
  match mkdirParents fs7 [name, "tests"] with
  | Except.error e => Except.error e
  | Except.ok fs8 =>
  safe_write_text fs8 w7 [name, "tests", "test_smoke.py"] TEST_TEMPLATE force

/-! External collaborators.  Their behaviour is out of scope (spec section
1); the environment records what the run needs from them. -/

/-- The execution environment: whether `uv` is on the search path
(line 88, `shutil.which`), the effect of a successful `uv init` on the
filesystem (`none` models a non-zero exit of the subprocess), and whether
the three git subcommands succeed. -/
structure Env : Type where
  uvAvailable : Bool
  uvInit : FS → Option FS
  gitOk : Bool

/-- Fatal conditions of a run: `SystemExit(code)` (line 90), a non-zero
subprocess exit propagating out of `run` (line 62), or a `pathlib`
exception from `create_standard_files`. -/
inductive RunErr : Type
  | systemExit (code : Nat)
  | subprocess
  | py (e : PyErr)

/-- Lines 87-90, `ensure_uv_available`: `SystemExit(1)` when `uv` is not
discoverable. -/
def ensure_uv_available (env : Env) : Except RunErr Unit :=
  if env.uvAvailable then Except.ok () else Except.error (RunErr.systemExit 1)

/-- Lines 93-102: the argument list handed to the external bootstrap. -/
def uvInitCmd (project_type : ProjType) (name : String) (force : Bool) : List String :=
  let cmd := ["uv", "init"]
  let cmd :=
    match project_type with
    | ProjType.package => cmd ++ ["--package", name]
    | ProjType.lib => cmd ++ ["--lib", name]
    | ProjType.app => cmd ++ [name]
  if force then cmd ++ ["--force"] else cmd

/-- Lines 93-104, `init_with_uv`: run the external bootstrap, recording
the argument list; a non-zero exit propagates. -/
def init_with_uv (env : Env) (project_type : ProjType) (name : String)
    (force : Bool) (fs : FS) : Except RunErr (FS × List (List String)) :=
  match env.uvInit fs with
  | some fs2 => Except.ok (fs2, [uvInitCmd project_type name force])
  | none => Except.error RunErr.subprocess

/-- The three git argument lists of lines 154-156. -/
def gitTrace : List (List String) :=
  [["git", "init"], ["git", "add", "-A"], ["git", "commit", "-m", "chore: initial commit"]]

/-- Lines 150-157, `init_git`: skip when `.git` exists under the project
directory, otherwise run the three git subcommands.  Git's own filesystem
effects are external collaborator behaviour (out of scope) and are not
modelled; the trace records the argument lists issued. -/
def init_git (env : Env) (fs : FS) (project_dir : FsPath) :
    Except RunErr (FS × List (List String)) :=
  if (FS.lookup fs (project_dir ++ [".git"])).isSome then Except.ok (fs, [])
  else if env.gitOk then Except.ok (fs, gitTrace)
  else Except.error RunErr.subprocess

/-- Lines 169-191, `main` after argument parsing: `ensure_uv_available`,
then `init_with_uv`, then `create_standard_files` on
`project_dir = base / name` (path `[name]` relative to the base), then
`init_git`.  The result carries the final filesystem and the trace of
external argument lists. -/
def mainRun (env : Env) (fs : FS) (project_type : ProjType) (name : String)
    (force : Bool) : Except RunErr (FS × List (List String)) :=
  match ensure_uv_available env with
  | Except.error e => Except.error e
  | Except.ok _ =>
  match init_with_uv env project_type name force fs with
  | Except.error e => Except.error e
  | Except.ok (fsA, tr1) =>
  match create_standard_files fsA name project_type force with
  | Except.error e => Except.error (RunErr.py e)
  | Except.ok (fsB, _) =>
  match init_git env fsB [name] with
  | Except.error e => Except.error e
  | Except.ok (fsC, tr2) => Except.ok (fsC, tr1 ++ tr2)

/-! Basic lemmas about the filesystem model. -/

theorem lookup_set_self (fs : FS) (p : FsPath) (e : Entry) :
    FS.lookup (FS.set fs p e) p = some e := by
  induction fs with
  | nil => simp [FS.set, FS.lookup]
  | cons hd tl ih =>
      obtain ⟨q, e0⟩ := hd
      by_cases hq : q = p
      · simp [FS.set, hq, FS.lookup]
      · simp [FS.set, hq, FS.lookup, ih]

theorem lookup_set_ne (fs : FS) (p : FsPath) (e : Entry) (r : FsPath) (hr : r ≠ p) :
    FS.lookup (FS.set fs p e) r = FS.lookup fs r := by
  induction fs with
  | nil => simp [FS.set, FS.lookup, Ne.symm hr]
  | cons hd tl ih =>
      obtain ⟨q, e0⟩ := hd
      by_cases hq : q = p
      · subst hq
        simp [FS.set, FS.lookup, Ne.symm hr]
      · by_cases hqr : q = r
        · subst hqr
          simp [FS.set, FS.lookup, hq]
        · simp [FS.set, hq, FS.lookup, hqr, ih]

/-- Monotone preservation of entries: every present entry is still present,
unchanged.  All the non-force steps of the reconciler satisfy this. -/
def EntriesMono (fs fs2 : FS) : Prop :=
  ∀ r e, FS.lookup fs r = some e → FS.lookup fs2 r = some e

theorem write_text_ok_lookup {fs : FS} {p : FsPath} {t : String} {fs2 : FS}
    (h : write_text fs p t = Except.ok fs2) :
    FS.lookup fs2 p = some (Entry.file t) := by
  unfold write_text at h
  split at h
  · exact Except.noConfusion h
  · obtain rfl : FS.set fs p (Entry.file t) = fs2 := Except.ok.inj h
    exact lookup_set_self fs p (Entry.file t)
  · split at h
    · obtain rfl : FS.set fs p (Entry.file t) = fs2 := Except.ok.inj h
      exact lookup_set_self fs p (Entry.file t)
    · exact Except.noConfusion h

theorem write_text_preserves_ne {fs : FS} {p : FsPath} {t : String} {fs2 : FS}
    (h : write_text fs p t = Except.ok fs2) (r : FsPath) (hr : r ≠ p) :
    FS.lookup fs2 r = FS.lookup fs r := by
  unfold write_text at h
  split at h
  · exact Except.noConfusion h
  · obtain rfl : FS.set fs p (Entry.file t) = fs2 := Except.ok.inj h
    exact lookup_set_ne fs p (Entry.file t) r hr
  · split at h
    · obtain rfl : FS.set fs p (Entry.file t) = fs2 := Except.ok.inj h
      exact lookup_set_ne fs p (Entry.file t) r hr
    · exact Except.noConfusion h

/-- `write_text` on an absent path only adds that path: every entry already
present is preserved unchanged. -/
theorem write_text_mono_of_absent {fs : FS} {p : FsPath} {t : String} {fs2 : FS}
    (hnone : FS.lookup fs p = none) (h : write_text fs p t = Except.ok fs2) :
    EntriesMono fs fs2 := by
  intro r e hre
  have hr : r ≠ p := by
    intro hrp
    rw [hrp, hnone] at hre
    exact Option.noConfusion hre
  rw [write_text_preserves_ne h r hr]
  exact hre

/-! Lemmas about `mkdirStep`, `mkdirList` and `mkdirParents`. -/

theorem mkdirStep_ok_dir {fs : FS} {q : FsPath} {fs2 : FS}
    (h : mkdirStep fs q = Except.ok fs2) : FS.lookup fs2 q = some Entry.dir := by
  unfold mkdirStep at h
  split at h
  · next heq =>
      obtain rfl : fs = fs2 := Except.ok.inj h
      exact heq
  · exact Except.noConfusion h
  · next heq =>
      obtain rfl : FS.set fs q Entry.dir = fs2 := Except.ok.inj h
      exact lookup_set_self fs q Entry.dir

theorem mkdirStep_mono {fs : FS} {q : FsPath} {fs2 : FS}
    (h : mkdirStep fs q = Except.ok fs2) : EntriesMono fs fs2 := by
  intro r e hre
  unfold mkdirStep at h
  split at h
  · obtain rfl : fs = fs2 := Except.ok.inj h
    exact hre
  · exact Except.noConfusion h
  · next heq =>
      obtain rfl : FS.set fs q Entry.dir = fs2 := Except.ok.inj h
      have hr : r ≠ q := by
        intro hrq
        rw [hrq, heq] at hre
        exact Option.noConfusion hre
      rw [lookup_set_ne fs q Entry.dir r hr]
      exact hre

theorem mkdirStep_of_dir {fs : FS} {q : FsPath}
    (h : FS.lookup fs q = some Entry.dir) : mkdirStep fs q = Except.ok fs := by
  unfold mkdirStep
  rw [h]

theorem mkdirList_mono {qs : List FsPath} :
    ∀ {fs fs2 : FS}, mkdirList fs qs = Except.ok fs2 → EntriesMono fs fs2 := by
  induction qs with
  | nil =>
      intro fs fs2 h r e hre
      obtain rfl : fs = fs2 := Except.ok.inj h
      exact hre
  | cons q qs ih =>
      intro fs fs2 h r e hre
      unfold mkdirList at h
      split at h
      · next fsMid hstep =>
          exact ih h r e (mkdirStep_mono hstep r e hre)
      · exact Except.noConfusion h

theorem mkdirList_ensures {qs : List FsPath} :
    ∀ {fs fs2 : FS}, mkdirList fs qs = Except.ok fs2 →
      ∀ q ∈ qs, FS.lookup fs2 q = some Entry.dir := by
  induction qs with
  | nil =>
      intro fs fs2 _ q hq
      exact absurd hq (List.not_mem_nil q)
  | cons q0 qs ih =>
      intro fs fs2 h q hq
      unfold mkdirList at h
      split at h
      · next fsMid hstep =>
          rcases List.mem_cons.mp hq with hq0 | hqs
          · subst hq0
            exact mkdirList_mono h q Entry.dir (mkdirStep_ok_dir hstep)
          · exact ih h q hqs
      · exact Except.noConfusion h

theorem mkdirList_of_dirs {qs : List FsPath} :
    ∀ {fs : FS}, (∀ q ∈ qs, FS.lookup fs q = some Entry.dir) →
      mkdirList fs qs = Except.ok fs := by
  induction qs with
  | nil => intro fs _; rfl
  | cons q0 qs ih =>
      intro fs h
      unfold mkdirList
      rw [mkdirStep_of_dir (h q0 (List.mem_cons_self q0 qs))]
      exact ih (fun q hq => h q (List.mem_cons_of_mem q0 hq))

/-! Lemmas about the two write policies. -/

theorem sft_skip {fs : FS} {path : FsPath} (w : Nat) (text : String)
    (h : (FS.lookup fs path).isSome) :
    safe_write_text fs w path text false = Except.ok (fs, w) := by
  unfold safe_write_text
  rw [h]
  rfl

theorem sft_ok_isSome {fs : FS} {w : Nat} {path : FsPath} {text : String}
    {force : Bool} {fs2 : FS} {w2 : Nat}
    (h : safe_write_text fs w path text force = Except.ok (fs2, w2)) :
    (FS.lookup fs2 path).isSome := by
  unfold safe_write_text at h
  split at h
  · next hcond =>
      obtain ⟨rfl, rfl⟩ : fs = fs2 ∧ w = w2 := by
        have := Except.ok.inj h
        exact ⟨congrArg Prod.fst this, congrArg Prod.snd this⟩
      simp only [Bool.and_eq_true] at hcond
      exact hcond.1
  · split at h
    · next fsW hw =>
        obtain rfl : fsW = fs2 := congrArg Prod.fst (Except.ok.inj h)
        rw [write_text_ok_lookup hw]
        rfl
    · exact Except.noConfusion h

theorem sft_preserves_ne {fs : FS} {w : Nat} {path : FsPath} {text : String}
    {force : Bool} {fs2 : FS} {w2 : Nat}
    (h : safe_write_text fs w path text force = Except.ok (fs2, w2))
    (r : FsPath) (hr : r ≠ path) : FS.lookup fs2 r = FS.lookup fs r := by
  unfold safe_write_text at h
  split at h
  · obtain rfl : fs = fs2 := congrArg Prod.fst (Except.ok.inj h)
    rfl
  · split at h
    · next fsW hw =>
        obtain rfl : fsW = fs2 := congrArg Prod.fst (Except.ok.inj h)
        exact write_text_preserves_ne hw r hr
    · exact Except.noConfusion h

/-- In non-force mode `safe_write_text` only ever writes an absent path, so
every present entry is preserved unchanged. -/
theorem sft_mono_nonforce {fs : FS} {w : Nat} {path : FsPath} {text : String}
    {fs2 : FS} {w2 : Nat}
    (h : safe_write_text fs w path text false = Except.ok (fs2, w2)) :
    EntriesMono fs fs2 := by
  unfold safe_write_text at h
  split at h
  · obtain rfl : fs = fs2 := congrArg Prod.fst (Except.ok.inj h)
    exact fun r e hre => hre
  · next hcond =>
      simp only [Bool.not_eq_true, Bool.and_eq_true, Bool.not_false, and_true,
        Bool.not_eq_true] at hcond
      have hnone : FS.lookup fs path = none := by
        cases hl : FS.lookup fs path with
        | none => rfl
        | some e => rw [hl] at hcond; exact Bool.noConfusion hcond
      split at h
      · next fsW hw =>
          obtain rfl : fsW = fs2 := congrArg Prod.fst (Except.ok.inj h)
          exact write_text_mono_of_absent hnone hw
      · exact Except.noConfusion h

theorem sft_force_writes {fs : FS} {w : Nat} {path : FsPath} {text : String}
    {fs2 : FS} {w2 : Nat}
    (h : safe_write_text fs w path text true = Except.ok (fs2, w2)) :
    FS.lookup fs2 path = some (Entry.file text) := by
  unfold safe_write_text at h
  rw [Bool.not_true, Bool.and_false] at h
  simp only [Bool.false_eq_true, if_false] at h
  split at h
  · next fsW hw =>
      obtain rfl : fsW = fs2 := congrArg Prod.fst (Except.ok.inj h)
      exact write_text_ok_lookup hw
  · exact Except.noConfusion h

theorem wiaf_skip {fs : FS} {path : FsPath} (w : Nat) (text : String)
    (h : (FS.lookup fs path).isSome) :
    write_if_absent_or_force fs w path text false = Except.ok (fs, w) := by
  unfold write_if_absent_or_force
  have hn : (FS.lookup fs path).isNone = false := by
    cases hl : FS.lookup fs path with
    | none => rw [hl] at h; exact Bool.noConfusion h
    | some e => rfl
  rw [hn]
  rfl

theorem wiaf_ok_isSome {fs : FS} {w : Nat} {path : FsPath} {text : String}
    {force : Bool} {fs2 : FS} {w2 : Nat}
    (h : write_if_absent_or_force fs w path text force = Except.ok (fs2, w2)) :
    (FS.lookup fs2 path).isSome := by
  unfold write_if_absent_or_force at h
  split at h
  · split at h
    · next fsW hw =>
        obtain rfl : fsW = fs2 := congrArg Prod.fst (Except.ok.inj h)
        rw [write_text_ok_lookup hw]
        rfl
    · exact Except.noConfusion h
  · next hcond =>
      obtain rfl : fs = fs2 := congrArg Prod.fst (Except.ok.inj h)
      simp only [Bool.or_eq_true, not_or, Bool.not_eq_true] at hcond
      cases hl : FS.lookup fs path with
      | none => rw [hl] at hcond; exact Bool.noConfusion hcond.1
      | some e => rfl

theorem wiaf_preserves_ne {fs : FS} {w : Nat} {path : FsPath} {text : String}
    {force : Bool} {fs2 : FS} {w2 : Nat}
    (h : write_if_absent_or_force fs w path text force = Except.ok (fs2, w2))
    (r : FsPath) (hr : r ≠ path) : FS.lookup fs2 r = FS.lookup fs r := by
  unfold write_if_absent_or_force at h
  split at h
  · split at h
    · next fsW hw =>
        obtain rfl : fsW = fs2 := congrArg Prod.fst (Except.ok.inj h)
        exact write_text_preserves_ne hw r hr
    · exact Except.noConfusion h
  · obtain rfl : fs = fs2 := congrArg Prod.fst (Except.ok.inj h)
    rfl

theorem wiaf_mono_nonforce {fs : FS} {w : Nat} {path : FsPath} {text : String}
    {fs2 : FS} {w2 : Nat}
    (h : write_if_absent_or_force fs w path text false = Except.ok (fs2, w2)) :
    EntriesMono fs fs2 := by
  unfold write_if_absent_or_force at h
  split at h
  · next hcond =>
      rw [Bool.or_false] at hcond
      have hnone : FS.lookup fs path = none := by
        cases hl : FS.lookup fs path with
        | none => rfl
        | some e => rw [hl] at hcond; exact Bool.noConfusion hcond
      split at h
      · next fsW hw =>
          obtain rfl : fsW = fs2 := congrArg Prod.fst (Except.ok.inj h)
          exact write_text_mono_of_absent hnone hw
      · exact Except.noConfusion h
  · obtain rfl : fs = fs2 := congrArg Prod.fst (Except.ok.inj h)
    exact fun r e hre => hre

theorem wiaf_force_writes {fs : FS} {w : Nat} {path : FsPath} {text : String}
    {fs2 : FS} {w2 : Nat}
    (h : write_if_absent_or_force fs w path text true = Except.ok (fs2, w2)) :
    FS.lookup fs2 path = some (Entry.file text) := by
  unfold write_if_absent_or_force at h
  rw [Bool.or_true] at h
  simp only [if_true] at h
  split at h
  · next fsW hw =>
      obtain rfl : fsW = fs2 := congrArg Prod.fst (Except.ok.inj h)
      exact write_text_ok_lookup hw
  · exact Except.noConfusion h

theorem mkdirParents_mono {fs : FS} {p : FsPath} {fs2 : FS}
    (h : mkdirParents fs p = Except.ok fs2) : EntriesMono fs fs2 :=
  mkdirList_mono h

theorem mkdirParents_ensures {fs : FS} {p : FsPath} {fs2 : FS}
    (h : mkdirParents fs p = Except.ok fs2) :
    ∀ q ∈ initSegs p, FS.lookup fs2 q = some Entry.dir :=
  mkdirList_ensures h

theorem isSome_mono {fs fs2 : FS} (m : EntriesMono fs fs2) {p : FsPath}
    (h : (FS.lookup fs p).isSome) : (FS.lookup fs2 p).isSome := by
  obtain ⟨e, he⟩ := Option.isSome_iff_exists.mp h
  rw [m p e he]
  rfl

theorem cons_ne_of_head {α : Type} {a b : α} (h : a ≠ b) (t1 t2 : List α) :
    a :: t1 ≠ b :: t2 := by
  intro hh
  injection hh with h1 _
  exact h h1

theorem cons_ne_of_tail {α : Type} (a : α) {t1 t2 : List α} (h : t1 ≠ t2) :
    a :: t1 ≠ a :: t2 := by
  intro hh
  injection hh with _ h2
  exact h h2

/-- A successful `create_standard_files` run decomposes into its nine
steps, in source order. -/
theorem csf_ok_destruct {fs : FS} {name : String} {ty : ProjType} {force : Bool}
    {fsOut : FS} {wOut : Nat}
    (h : create_standard_files fs name ty force = Except.ok (fsOut, wOut)) :
    ∃ fs1 fs2 w2 fs3 w3 fs4 w4 fs5 fs6 w6 fs7 w7 fs8,
      mkdirParents fs [name] = Except.ok fs1 ∧
      write_if_absent_or_force fs1 0 [name, ".python-version"] PYTHON_VERSION force
        = Except.ok (fs2, w2) ∧
      safe_write_text fs2 w2 [name, "README.md"] (README_TEMPLATE name) force
        = Except.ok (fs3, w3) ∧
      safe_write_text fs3 w3 [name, "pyproject.toml"] (pyprojectContent name) force
        = Except.ok (fs4, w4) ∧
      mkdirParents fs4 [name, "src", normalize_package_name name] = Except.ok fs5 ∧
      safe_write_text fs5 w4 [name, "src", normalize_package_name name, "__init__.py"]
        (INIT_PY_TEMPLATE name) force = Except.ok (fs6, w6) ∧
      write_if_absent_or_force fs6 w6 [name, "src", normalize_package_name name, "py.typed"]
        PY_TYPED_MARKER force = Except.ok (fs7, w7) ∧
      mkdirParents fs7 [name, "tests"] = Except.ok fs8 ∧
      safe_write_text fs8 w7 [name, "tests", "test_smoke.py"] TEST_TEMPLATE force
        = Except.ok (fsOut, wOut) := by
  unfold create_standard_files at h
  repeat' split at h
  all_goals try exact Except.noConfusion h
  exact ⟨_, _, _, _, _, _, _, _, _, _, _, _, _, by assumption, by assumption, by assumption,
    by assumption, by assumption, by assumption, by assumption, by assumption, h⟩

/-- C2: running the reconciler (`create_standard_files`) twice in
succession with `force = false` on the same target yields, after the
second run, on-disk content identical to the content after the first run,
and the second run performs zero content-modifying writes (`write_text`
calls). -/
theorem create_standard_files_idempotent :
    ∀ (fs : FS) (name : String) (ty : ProjType) (fsOut : FS) (wOut : Nat),
      create_standard_files fs name ty false = Except.ok (fsOut, wOut) →
      create_standard_files fsOut name ty false = Except.ok (fsOut, 0) := by
  intro fs name ty fsOut wOut h
  obtain ⟨A, B, w2, C, w3, D, w4, E, F, w6, G, w7, H,
    h1, h2, h3, h4, h5, h6, h7, h8, h9⟩ := csf_ok_destruct h
  have n9 : EntriesMono H fsOut := sft_mono_nonforce h9
  have n8 : EntriesMono G fsOut := fun r e hre => n9 r e (mkdirParents_mono h8 r e hre)
  have n7 : EntriesMono F fsOut := fun r e hre => n8 r e (wiaf_mono_nonforce h7 r e hre)
  have n6 : EntriesMono E fsOut := fun r e hre => n7 r e (sft_mono_nonforce h6 r e hre)
  have n5 : EntriesMono D fsOut := fun r e hre => n6 r e (mkdirParents_mono h5 r e hre)
  have n4 : EntriesMono C fsOut := fun r e hre => n5 r e (sft_mono_nonforce h4 r e hre)
  have n3 : EntriesMono B fsOut := fun r e hre => n4 r e (sft_mono_nonforce h3 r e hre)
  have n2 : EntriesMono A fsOut := fun r e hre => n3 r e (wiaf_mono_nonforce h2 r e hre)
  have dName : FS.lookup fsOut [name] = some Entry.dir :=
    n2 _ _ (mkdirParents_ensures h1 [name] (by simp [initSegs]))
  have dSrc : FS.lookup fsOut [name, "src"] = some Entry.dir :=
    n6 _ _ (mkdirParents_ensures h5 [name, "src"] (by simp [initSegs]))
  have dSrcPkg : FS.lookup fsOut [name, "src", normalize_package_name name] = some Entry.dir :=
    n6 _ _ (mkdirParents_ensures h5 [name, "src", normalize_package_name name]
      (by simp [initSegs]))
  have dTests : FS.lookup fsOut [name, "tests"] = some Entry.dir :=
    n9 _ _ (mkdirParents_ensures h8 [name, "tests"] (by simp [initSegs]))
  have fPv : (FS.lookup fsOut [name, ".python-version"]).isSome :=
    isSome_mono n3 (wiaf_ok_isSome h2)
  have fReadme : (FS.lookup fsOut [name, "README.md"]).isSome :=
    isSome_mono n4 (sft_ok_isSome h3)
  have fPyproject : (FS.lookup fsOut [name, "pyproject.toml"]).isSome :=
    isSome_mono n5 (sft_ok_isSome h4)
  have fInit : (FS.lookup fsOut [name, "src", normalize_package_name name, "__init__.py"]).isSome :=
    isSome_mono n7 (sft_ok_isSome h6)
  have fTyped : (FS.lookup fsOut [name, "src", normalize_package_name name, "py.typed"]).isSome :=
    isSome_mono n8 (wiaf_ok_isSome h7)
  have fSmoke : (FS.lookup fsOut [name, "tests", "test_smoke.py"]).isSome :=
    sft_ok_isSome h9
  have e1 : mkdirParents fsOut [name] = Except.ok fsOut := by
    unfold mkdirParents
    refine mkdirList_of_dirs ?_
    intro q hq
    simp [initSegs] at hq
    rw [hq]
    exact dName
  have e5 : mkdirParents fsOut [name, "src", normalize_package_name name] = Except.ok fsOut := by
    unfold mkdirParents
    refine mkdirList_of_dirs ?_
    intro q hq
    simp [initSegs] at hq
    rcases hq with hq | hq | hq
    · rw [hq]; exact dName
    · rw [hq]; exact dSrc
    · rw [hq]; exact dSrcPkg
  have e8 : mkdirParents fsOut [name, "tests"] = Except.ok fsOut := by
    unfold mkdirParents
    refine mkdirList_of_dirs ?_
    intro q hq
    simp [initSegs] at hq
    rcases hq with hq | hq
    · rw [hq]; exact dName
    · rw [hq]; exact dTests
  have e2 := wiaf_skip 0 PYTHON_VERSION fPv
  have e3 := sft_skip 0 (README_TEMPLATE name) fReadme
  have e4 := sft_skip 0 (pyprojectContent name) fPyproject
  have e6 := sft_skip 0 (INIT_PY_TEMPLATE name) fInit
  have e7 := wiaf_skip 0 PY_TYPED_MARKER fTyped
  have e9 := sft_skip 0 TEST_TEMPLATE fSmoke
  simp only [create_standard_files, e1, e2, e3, e4, e5, e6, e7, e8, e9]

/-- C5 (amended): a `force = true` run of the reconciler that completes
successfully leaves every skip-if-exists artifact's target path holding
the canonical content. -/
theorem force_run_rewrites_on_success :
    ∀ (fs : FS) (name : String) (ty : ProjType) (fsOut : FS) (wOut : Nat),
      create_standard_files fs name ty true = Except.ok (fsOut, wOut) →
      FS.lookup fsOut [name, ".python-version"] = some (Entry.file PYTHON_VERSION) ∧
      FS.lookup fsOut [name, "README.md"] = some (Entry.file (README_TEMPLATE name)) ∧
      FS.lookup fsOut [name, "pyproject.toml"] = some (Entry.file (pyprojectContent name)) ∧
      FS.lookup fsOut [name, "src", normalize_package_name name, "__init__.py"]
        = some (Entry.file (INIT_PY_TEMPLATE name)) ∧
      FS.lookup fsOut [name, "src", normalize_package_name name, "py.typed"]
        = some (Entry.file PY_TYPED_MARKER) ∧
      FS.lookup fsOut [name, "tests", "test_smoke.py"] = some (Entry.file TEST_TEMPLATE) := by
  intro fs name ty fsOut wOut h
  obtain ⟨A, B, w2, C, w3, D, w4, E, F, w6, G, w7, H,
    h1, h2, h3, h4, h5, h6, h7, h8, h9⟩ := csf_ok_destruct h
  refine ⟨?_, ?_, ?_, ?_, ?_, ?_⟩
  · rw [sft_preserves_ne h9 _ (cons_ne_of_tail name (cons_ne_of_head (by decide) _ _))]
    refine mkdirParents_mono h8 _ _ ?_
    rw [wiaf_preserves_ne h7 _ (cons_ne_of_tail name (cons_ne_of_head (by decide) _ _))]
    rw [sft_preserves_ne h6 _ (cons_ne_of_tail name (cons_ne_of_head (by decide) _ _))]
    refine mkdirParents_mono h5 _ _ ?_
    rw [sft_preserves_ne h4 _ (cons_ne_of_tail name (by decide))]
    rw [sft_preserves_ne h3 _ (cons_ne_of_tail name (by decide))]
    exact wiaf_force_writes h2
  · rw [sft_preserves_ne h9 _ (cons_ne_of_tail name (cons_ne_of_head (by decide) _ _))]
    refine mkdirParents_mono h8 _ _ ?_
    rw [wiaf_preserves_ne h7 _ (cons_ne_of_tail name (cons_ne_of_head (by decide) _ _))]
    rw [sft_preserves_ne h6 _ (cons_ne_of_tail name (cons_ne_of_head (by decide) _ _))]
    refine mkdirParents_mono h5 _ _ ?_
    rw [sft_preserves_ne h4 _ (cons_ne_of_tail name (by decide))]
    exact sft_force_writes h3
  · rw [sft_preserves_ne h9 _ (cons_ne_of_tail name (cons_ne_of_head (by decide) _ _))]
    refine mkdirParents_mono h8 _ _ ?_
    rw [wiaf_preserves_ne h7 _ (cons_ne_of_tail name (cons_ne_of_head (by decide) _ _))]
    rw [sft_preserves_ne h6 _ (cons_ne_of_tail name (cons_ne_of_head (by decide) _ _))]
    refine mkdirParents_mono h5 _ _ ?_
    exact sft_force_writes h4
  · rw [sft_preserves_ne h9 _ (cons_ne_of_tail name (cons_ne_of_head (by decide) _ _))]
    refine mkdirParents_mono h8 _ _ ?_
    rw [wiaf_preserves_ne h7 _
      (cons_ne_of_tail name (cons_ne_of_tail "src"
        (cons_ne_of_tail (normalize_package_name name) (by decide))))]
    exact sft_force_writes h6
  · rw [sft_preserves_ne h9 _ (cons_ne_of_tail name (cons_ne_of_head (by decide) _ _))]
    refine mkdirParents_mono h8 _ _ ?_
    exact wiaf_force_writes h7
  · exact sft_force_writes h9

/-- C4 (amended): after every successful run of the reconciler, the
typed-package marker path `src/<package_identifier>/py.typed` exists,
for every requested project kind, not only `lib`. -/
theorem py_typed_exists_after_success :
    ∀ (fs : FS) (name : String) (ty : ProjType) (force : Bool) (fsOut : FS) (wOut : Nat),
      create_standard_files fs name ty force = Except.ok (fsOut, wOut) →
      (FS.lookup fsOut [name, "src", normalize_package_name name, "py.typed"]).isSome := by
  intro fs name ty force fsOut wOut h
  obtain ⟨A, B, w2, C, w3, D, w4, E, F, w6, G, w7, H,
    h1, h2, h3, h4, h5, h6, h7, h8, h9⟩ := csf_ok_destruct h
  have hne : ([name, "src", normalize_package_name name, "py.typed"] : FsPath)
      ≠ [name, "tests", "test_smoke.py"] :=
    cons_ne_of_tail name (cons_ne_of_head (by decide) _ _)
  rw [sft_preserves_ne h9 _ hne]
  exact isSome_mono (mkdirParents_mono h8) (wiaf_ok_isSome h7)

/-- Whether an `Except` value is a success. -/
def exceptOk {ε α : Type} : Except ε α → Bool
  | Except.ok _ => true
  | Except.error _ => false

/-- C1 (amended): the skip-if-exists write policy.  An existing path is
left untouched (with no error) when `force = false`, whether it is a
regular file or not; an absent path (below an existing parent directory)
is written for either force setting; with `force = true` an existing
regular file is rewritten with the canonical content, but an existing
directory makes the write raise `IsADirectoryError` instead of writing. -/
theorem safe_write_text_policy :
    ∀ (fs : FS) (w : Nat) (path : FsPath) (text : String),
      ((FS.lookup fs path).isSome →
        safe_write_text fs w path text false = Except.ok (fs, w)) ∧
      (FS.lookup fs path = none → parentOk fs path = true →
        ∀ force, safe_write_text fs w path text force =
          Except.ok (FS.set fs path (Entry.file text), w + 1)) ∧
      ((∃ c, FS.lookup fs path = some (Entry.file c)) →
        safe_write_text fs w path text true =
          Except.ok (FS.set fs path (Entry.file text), w + 1)) ∧
      (FS.lookup fs path = some Entry.dir →
        safe_write_text fs w path text true = Except.error PyErr.isADirectoryError) := by
  intro fs w path text
  refine ⟨?_, ?_, ?_, ?_⟩
  · intro h
    exact sft_skip w text h
  · intro hnone hp force
    simp [safe_write_text, write_text, hnone, hp]
  · intro hfile
    obtain ⟨c, hc⟩ := hfile
    simp [safe_write_text, write_text, hc]
  · intro hdir
    simp [safe_write_text, write_text, hdir]

/-- Witness for `safe_write_text_policy`: the four cases at concrete
inputs (skip of an existing file; write of an absent path under force;
forced rewrite of an existing file; forced write onto a directory). -/
theorem safe_write_text_policy_witness :
    safe_write_text [(["f.txt"], Entry.file "old")] 3 ["f.txt"] "new" false
      = Except.ok ([(["f.txt"], Entry.file "old")], 3) ∧
    safe_write_text FS.empty 0 ["g.txt"] "new" true
      = Except.ok (FS.set FS.empty ["g.txt"] (Entry.file "new"), 1) ∧
    safe_write_text [(["h.txt"], Entry.file "old")] 0 ["h.txt"] "new" true
      = Except.ok (FS.set [(["h.txt"], Entry.file "old")] ["h.txt"] (Entry.file "new"), 1) ∧
    safe_write_text [(["d"], Entry.dir)] 0 ["d"] "new" true
      = Except.error PyErr.isADirectoryError :=
  ⟨(safe_write_text_policy _ _ _ _).1 (by decide),
   (safe_write_text_policy _ _ _ _).2.1 (by decide) (by decide) true,
   (safe_write_text_policy _ _ _ _).2.2.1 ⟨"old", by decide⟩,
   (safe_write_text_policy _ _ _ _).2.2.2 (by decide)⟩

/-- C1 counterexample: the claim's unconditional "if `force = true` ...
the canonical content is written" fails when the existing path is a
directory: `safe_write_text` raises `IsADirectoryError` and writes
nothing. -/
theorem safe_write_text_force_dir_error_cex :
    safe_write_text [(["sub"], Entry.dir)] 0 ["sub"] "content" true
      = Except.error PyErr.isADirectoryError := by
  rfl

/-- C6 (amended): when `force = false`, a managed target path occupied by
an incompatible entry kind (a directory where a file is expected) is not
an error: `safe_write_text` skips the artifact, leaving the state and the
write counter unchanged, and the run continues.  (With `force = true` the
attempted overwrite raises `IsADirectoryError` instead — see the
counterexample.) -/
theorem path_conflict_skip_nonforce :
    ∀ (fs : FS) (w : Nat) (path : FsPath) (text : String),
      FS.lookup fs path = some Entry.dir →
      safe_write_text fs w path text false = Except.ok (fs, w) := by
  intro fs w path text h
  refine sft_skip w text ?_
  rw [h]
  rfl

/-- Witness for `path_conflict_skip_nonforce`: a directory occupying
`README.md` is skipped without error in non-force mode. -/
theorem path_conflict_skip_nonforce_witness :
    safe_write_text [(["demo"], Entry.dir), (["demo", "README.md"], Entry.dir)] 2
      ["demo", "README.md"] "text" false
      = Except.ok ([(["demo"], Entry.dir), (["demo", "README.md"], Entry.dir)], 2) :=
  path_conflict_skip_nonforce _ _ _ _ (by decide)

/-- C6 counterexample: with `force = true` an incompatible-type conflict
is treated as an error after all: a directory occupying `README.md` makes
the whole reconciler run abort with `IsADirectoryError` rather than
degrade to a skip. -/
theorem path_conflict_force_error_cex :
    create_standard_files [(["demo"], Entry.dir), (["demo", "README.md"], Entry.dir)]
      "demo" ProjType.app true = Except.error PyErr.isADirectoryError := by
  rfl

/-- C5 counterexample: a `force = true` run does not rewrite every
skip-if-exists artifact for every prior state: a directory occupying
`pyproject.toml` aborts the run with `IsADirectoryError`, leaving that
artifact without its canonical content. -/
theorem force_run_dir_conflict_cex :
    create_standard_files [(["demo"], Entry.dir), (["demo", "pyproject.toml"], Entry.dir)]
      "demo" ProjType.package true = Except.error PyErr.isADirectoryError := by
  rfl

/-- Witness for `force_run_rewrites_on_success`: a successful forced run
from the empty state leaves the canonical `.python-version` content. -/
theorem force_run_rewrites_on_success_witness :
    ∃ fsOut wOut,
      create_standard_files FS.empty "demo" ProjType.package true = Except.ok (fsOut, wOut) ∧
      FS.lookup fsOut ["demo", ".python-version"] = some (Entry.file PYTHON_VERSION) ∧
      FS.lookup fsOut ["demo", "tests", "test_smoke.py"] = some (Entry.file TEST_TEMPLATE) := by
  have hok : exceptOk (create_standard_files FS.empty "demo" ProjType.package true) = true := by
    decide
  cases hrun : create_standard_files FS.empty "demo" ProjType.package true with
  | error e =>
      rw [hrun] at hok
      exact Bool.noConfusion hok
  | ok p =>
      obtain ⟨fsv, wv⟩ := p
      have hfacts := force_run_rewrites_on_success FS.empty "demo" ProjType.package fsv wv hrun
      exact ⟨fsv, wv, rfl, hfacts.1, hfacts.2.2.2.2.2⟩

/-- C4 counterexample: a successful run with kind `package` (not `lib`)
still creates the typed-package marker, refuting the claimed "only if
kind = lib" direction. -/
theorem py_typed_created_for_package_cex :
    (match create_standard_files FS.empty "demo" ProjType.package false with
     | Except.ok (fsOut, _) => FS.lookup fsOut ["demo", "src", "demo", "py.typed"]
     | Except.error _ => none) = some (Entry.file PY_TYPED_MARKER) ∧
    ProjType.package ≠ ProjType.lib := by
  refine ⟨by decide, by decide⟩

/-- Witness for `py_typed_exists_after_success`: a successful `app`-kind
run from the empty state has the marker present. -/
theorem py_typed_exists_after_success_witness :
    ∃ fsOut wOut,
      create_standard_files FS.empty "tool" ProjType.app false = Except.ok (fsOut, wOut) ∧
      (FS.lookup fsOut ["tool", "src", "tool", "py.typed"]).isSome := by
  have hok : exceptOk (create_standard_files FS.empty "tool" ProjType.app false) = true := by
    decide
  cases hrun : create_standard_files FS.empty "tool" ProjType.app false with
  | error e =>
      rw [hrun] at hok
      exact Bool.noConfusion hok
  | ok p =>
      obtain ⟨fsv, wv⟩ := p
      exact ⟨fsv, wv, rfl,
        py_typed_exists_after_success FS.empty "tool" ProjType.app false fsv wv hrun⟩

/-- Witness for `create_standard_files_idempotent`: a first run from the
empty state, then the second run returns the same state with zero
writes. -/
theorem create_standard_files_idempotent_witness :
    ∃ fsOut wOut,
      create_standard_files FS.empty "demo" ProjType.package false = Except.ok (fsOut, wOut) ∧
      create_standard_files fsOut "demo" ProjType.package false = Except.ok (fsOut, 0) := by
  have hok : exceptOk (create_standard_files FS.empty "demo" ProjType.package false) = true := by
    decide
  cases hrun : create_standard_files FS.empty "demo" ProjType.package false with
  | error e =>
      rw [hrun] at hok
      exact Bool.noConfusion hok
  | ok p =>
      obtain ⟨fsv, wv⟩ := p
      exact ⟨fsv, wv, rfl,
        create_standard_files_idempotent FS.empty "demo" ProjType.package fsv wv hrun⟩

/-- C7: the derived package identifier is the input name with every
hyphen replaced by an underscore, hence contains no hyphen; the
console/entry-point name placed in the generated manifest is
byte-identical to the input name. -/
theorem normalize_and_console_name_spec :
    ∀ (name : String),
      (normalize_package_name name).data
        = name.data.map (fun c => if c = '-' then '_' else c) ∧
      '-' ∉ (normalize_package_name name).data ∧
      consoleName name = name ∧
      pyprojectContent name
        = PYPROJECT_TEMPLATE name (normalize_package_name name) name UV_BUILD_REQUIRE := by
  intro name
  refine ⟨rfl, ?_, rfl, rfl⟩
  intro hmem
  have hmem2 : '-' ∈ name.data.map (fun c => if c = '-' then '_' else c) := hmem
  rw [List.mem_map] at hmem2
  obtain ⟨a, _, ha⟩ := hmem2
  by_cases hc : a = '-'
  · rw [if_pos hc] at ha
    exact absurd ha (by decide)
  · rw [if_neg hc] at ha
    exact hc ha

/-- Witness for `normalize_and_console_name_spec` at a concrete
hyphenated name. -/
theorem normalize_and_console_name_spec_witness :
    '-' ∉ (normalize_package_name "example-pkg").data ∧
    consoleName "example-pkg" = "example-pkg" :=
  ⟨(normalize_and_console_name_spec "example-pkg").2.1,
   (normalize_and_console_name_spec "example-pkg").2.2.1⟩

/-- C8: when the external package manager is not discoverable on the
search path, the run terminates with `SystemExit(1)` (a non-zero exit),
before any of the filesystem-mutating stages is reached. -/
theorem uv_unavailable_aborts :
    ∀ (env : Env) (fs : FS) (ty : ProjType) (name : String) (force : Bool),
      env.uvAvailable = false →
      mainRun env fs ty name force = Except.error (RunErr.systemExit 1) := by
  intro env fs ty name force h
  simp [mainRun, ensure_uv_available, h]

/-- Witness for `uv_unavailable_aborts` at a concrete environment without
`uv`. -/
theorem uv_unavailable_aborts_witness :
    mainRun (Env.mk false (fun fs2 => some fs2) true) FS.empty ProjType.app "demo-app" false
      = Except.error (RunErr.systemExit 1) :=
  uv_unavailable_aborts _ _ _ _ _ rfl

/-- C9: the external bootstrap argument list is a function of the project
kind — `package` passes `--package`, `lib` passes `--lib`, `app` passes
the bare positional name — and requesting force appends `--force`. -/
theorem uv_init_cmd_spec :
    ∀ (name : String),
      uvInitCmd ProjType.package name false = ["uv", "init", "--package", name] ∧
      uvInitCmd ProjType.lib name false = ["uv", "init", "--lib", name] ∧
      uvInitCmd ProjType.app name false = ["uv", "init", name] ∧
      (∀ ty, uvInitCmd ty name true = uvInitCmd ty name false ++ ["--force"]) := by
  intro name
  refine ⟨rfl, rfl, rfl, ?_⟩
  intro ty
  cases ty <;> rfl

/-- C10: the version-control bootstrapper does nothing (and succeeds)
when `.git` exists at the target root; otherwise it issues exactly the
repository-initialization, stage-all and single-commit commands, the
commit carrying the fixed conventional message. -/
theorem init_git_spec :
    ∀ (env : Env) (fs : FS) (project_dir : FsPath),
      ((FS.lookup fs (project_dir ++ [".git"])).isSome →
        init_git env fs project_dir = Except.ok (fs, [])) ∧
      (FS.lookup fs (project_dir ++ [".git"]) = none → env.gitOk = true →
        init_git env fs project_dir = Except.ok (fs, gitTrace) ∧
        (gitTrace.filter
          (fun c => c == ["git", "commit", "-m", "chore: initial commit"])).length = 1) := by
  intro env fs project_dir
  constructor
  · intro h
    simp [init_git, h]
  · intro h hg
    refine ⟨?_, by decide⟩
    simp [init_git, h, hg]

/-- Witness for `init_git_spec`: both branches at concrete states. -/
theorem init_git_spec_witness :
    init_git (Env.mk true (fun fs2 => some fs2) true) [(["p", ".git"], Entry.dir)] ["p"]
      = Except.ok ([(["p", ".git"], Entry.dir)], []) ∧
    init_git (Env.mk true (fun fs2 => some fs2) true) FS.empty ["p"]
      = Except.ok (FS.empty, gitTrace) ∧
    (gitTrace.filter
      (fun c => c == ["git", "commit", "-m", "chore: initial commit"])).length = 1 :=
  ⟨(init_git_spec (Env.mk true (fun fs2 => some fs2) true)
      [(["p", ".git"], Entry.dir)] ["p"]).1 (by decide),
   ((init_git_spec (Env.mk true (fun fs2 => some fs2) true) FS.empty ["p"]).2
      (by decide) rfl).1,
   ((init_git_spec (Env.mk true (fun fs2 => some fs2) true) FS.empty ["p"]).2
      (by decide) rfl).2⟩

/-- C3: the program has no `TargetNotEmpty` guard.  At the failing input
— the target directory `demo` already exists and is non-empty, and
`force = false` — `main` does not abort: it invokes the external
bootstrap (`uv init --package demo` appears in the trace) and finishes
with a success result, writing the managed artifacts into the non-empty
directory.  This contradicts the script's own module docstring ("The
script will refuse to operate on a non-empty target directory unless
--force is passed") and the specified refusal policy. -/
theorem main_no_target_not_empty_guard :
    (match mainRun (Env.mk true (fun fs2 => some fs2) true)
        [(["demo"], Entry.dir), (["demo", "notes.txt"], Entry.file "junk")]
        ProjType.package "demo" false with
     | Except.ok (_, trace) => trace.contains (uvInitCmd ProjType.package "demo" false)
     | Except.error _ => false) = true := by
  decide

end InitProject
